import Mathlib

/-!
Shallow embedding of the screen-mockup application core: the image-geometry
helpers and the composite-image orchestrator of `services/geminiService.ts`
(source file `src/unnamed/part_000`, lines 1-265).

Pixel geometry is modelled over `ℚ`.  The awaited browser and model-API
operations are modelled as an environment of call results that one run of
the orchestrator consumes; the orchestrator also records the ordered trace
of the calls it issues, so that claims about calls never being made can be
stated about the trace.
-/

set_option autoImplicit false

namespace GeminiService

/-- Inline binary payload of a response part: MIME type plus base64 data
(the `inlineData` field consumed at part_000 lines 245-250). -/
structure InlineData where
  mimeType : String
  data : String
deriving DecidableEq

/-- One part of a model response; a text-only part carries no inline data. -/
structure Part where
  inlineData : Option InlineData
deriving DecidableEq

/-- The `content` field of a response candidate: an optional list of parts. -/
structure Content where
  parts : Option (List Part)
deriving DecidableEq

/-- One candidate of a `GenerateContentResponse`. -/
structure Candidate where
  content : Option Content
deriving DecidableEq

/-- The shape of the composition-call response as consumed by the
orchestrator (line 245): only the candidate list is inspected. -/
structure GenerateContentResponse where
  candidates : Option (List Candidate)
deriving DecidableEq

/-- The shape of the description-call response as consumed by the
orchestrator (line 200): only the `text` accessor is read. -/
structure DescriptionResponse where
  text : String
deriving DecidableEq

/-- A `data:` URL, as assembled at line 250: MIME type plus base64 payload. -/
structure DataUrl where
  mimeType : String
  data : String
deriving DecidableEq

/-- A JavaScript `Error`, identified by its message string. -/
structure JsError where
  message : String
deriving DecidableEq

/-- Axis-aligned box: the letterbox content region inside the square. -/
structure ContentBox where
  x : ℚ
  y : ℚ
  width : ℚ
  height : ℚ
deriving DecidableEq

/-- Content-box geometry computed inside `resizeImage` (lines 96-108):
aspect ratio of the input, landscape versus portrait branch, then
centring offsets on the `targetDimension` square. -/
def resizeContentBox (width height targetDimension : ℚ) : ContentBox :=
  let aspectRatio := width / height
  let newWidth := if aspectRatio > 1 then targetDimension else targetDimension * aspectRatio
  let newHeight := if aspectRatio > 1 then targetDimension / aspectRatio else targetDimension
  { x := (targetDimension - newWidth) / 2
    y := (targetDimension - newHeight) / 2
    width := newWidth
    height := newHeight }

/-- Content-box geometry recomputed inside the crop helper cropToOriginalAspectRatio
(lines 40-51) from the original dimensions; written separately so that
its agreement with `resizeContentBox` is a theorem, not a definition. -/
def cropContentBox (originalWidth originalHeight targetDimension : ℚ) : ContentBox :=
  let aspectRatio := originalWidth / originalHeight
  let contentWidth := if aspectRatio > 1 then targetDimension else targetDimension * aspectRatio
  let contentHeight := if aspectRatio > 1 then targetDimension / aspectRatio else targetDimension
  { x := (targetDimension - contentWidth) / 2
    y := (targetDimension - contentHeight) / 2
    width := contentWidth
    height := contentHeight }

/-- Result of `resizeImage` (lines 73-127): a `targetDimension`-square,
black-filled canvas with the source drawn into the centred content box,
exported as JPEG at quality 0.95. -/
structure SquareImage where
  width : ℚ
  height : ℚ
  content : ContentBox
  mimeType : String
  quality : ℚ
deriving DecidableEq

/-- Shallow embedding of `resizeImage` (lines 73-127): the output canvas is
`targetDimension` by `targetDimension` (lines 85-86), the content box is
the centred letterbox region (lines 96-108), and the export format is
fixed as JPEG at quality 0.95 (line 121). -/
def resizeImage (imgWidth imgHeight targetDimension : ℚ) : SquareImage :=
  { width := targetDimension
    height := targetDimension
    content := resizeContentBox imgWidth imgHeight targetDimension
    mimeType := "image/jpeg"
    quality := 95 / 100 }

/-- Result of the crop helper cropToOriginalAspectRatio (lines 30-68): a canvas of the
content-box size holding the sub-region `sourceRect` of the square input
(the drawImage call at line 62), exported via toDataURL as JPEG at
quality 0.95 (line 64) regardless of the MIME type of the input. -/
structure CroppedImage where
  width : ℚ
  height : ℚ
  sourceRect : ContentBox
  mimeType : String
  quality : ℚ
deriving DecidableEq

/-- Shallow embedding of the crop helper cropToOriginalAspectRatio (lines 30-68): the
content box is recomputed from the original dimensions (lines 40-51), the
canvas takes the content-box size (lines 54-55), the extracted source
rectangle is exactly the content box (line 62), and the export is JPEG at
quality 0.95 (line 64); the pixels of `imageDataUrl` are never inspected. -/
def cropToOriginalAspectRatio (imageDataUrl : DataUrl)
    (originalWidth originalHeight targetDimension : ℚ) : CroppedImage :=
  let box := cropContentBox originalWidth originalHeight targetDimension
  { width := box.width
    height := box.height
    sourceRect := box
    mimeType := "image/jpeg"
    quality := 95 / 100 }

/-- C4: round-trip law.  For positive original dimensions and a positive
target dimension, cropping the padded square with the same triple yields an
image whose aspect ratio is exactly the original `w / h`, and the source
rectangle extracted by the crop is exactly the content box into which
`resizeImage` drew the original content, so no residual padding remains. -/
theorem pad_crop_roundtrip (w h t : ℚ) (url : DataUrl)
    (hw : 0 < w) (hh : 0 < h) (ht : 0 < t) :
    ( cropToOriginalAspectRatio url w h t).width
        / ( cropToOriginalAspectRatio url w h t).height = w / h ∧
    ( cropToOriginalAspectRatio url w h t).sourceRect = (resizeImage w h t).content := by
  constructor
  · have hw0 : w ≠ 0 := ne_of_gt hw
    have hh0 : h ≠ 0 := ne_of_gt hh
    have ht0 : t ≠ 0 := ne_of_gt ht
    unfold cropToOriginalAspectRatio cropContentBox
    by_cases hc : w / h > 1
    · simp only [hc, if_true]
      field_simp
      ring
    · simp only [hc, if_false]
      field_simp
      ring
  · rfl

/-- Witness for `pad_crop_roundtrip` at the concrete triple (1920, 1080, 1024). -/
theorem pad_crop_roundtrip_wit :
    (0 : ℚ) < 1920 ∧ (0 : ℚ) < 1080 ∧ (0 : ℚ) < 1024 ∧
    (( cropToOriginalAspectRatio { mimeType := "image/jpeg", data := "" } 1920 1080 1024).width
        / ( cropToOriginalAspectRatio { mimeType := "image/jpeg", data := "" } 1920 1080 1024).height
        = 1920 / 1080 ∧
      ( cropToOriginalAspectRatio { mimeType := "image/jpeg", data := "" } 1920 1080 1024).sourceRect
        = (resizeImage 1920 1080 1024).content) :=
  ⟨by norm_num, by norm_num, by norm_num,
    pad_crop_roundtrip 1920 1080 1024 { mimeType := "image/jpeg", data := "" }
      (by norm_num) (by norm_num) (by norm_num)⟩

/-- C5: content-box formula.  For positive input dimensions, `resizeImage`
and the crop helper cropToOriginalAspectRatio compute the identical content box from the
identical branch condition on the aspect ratio `w / h`: width `t` and
height `t / (w / h)` in the landscape branch, width `t * (w / h)` and
height `t` otherwise, centred at offsets half the leftover space. -/
theorem content_box_formula_agree (w h t : ℚ) (hw : 0 < w) (hh : 0 < h) :
    resizeContentBox w h t = cropContentBox w h t ∧
    (resizeContentBox w h t).width = (if w / h > 1 then t else t * (w / h)) ∧
    (resizeContentBox w h t).height = (if w / h > 1 then t / (w / h) else t) ∧
    (resizeContentBox w h t).x = (t - (resizeContentBox w h t).width) / 2 ∧
    (resizeContentBox w h t).y = (t - (resizeContentBox w h t).height) / 2 := by
  refine ⟨rfl, ?_, ?_, ?_, ?_⟩ <;>
    · unfold resizeContentBox
      by_cases hc : w / h > 1 <;> simp [hc]

/-- Witness for `content_box_formula_agree` at (1920, 1080, 1024). -/
theorem content_box_formula_agree_wit :
    resizeContentBox 1920 1080 1024 = cropContentBox 1920 1080 1024 ∧
    (resizeContentBox 1920 1080 1024).width
      = (if (1920 : ℚ) / 1080 > 1 then 1024 else 1024 * ((1920 : ℚ) / 1080)) ∧
    (resizeContentBox 1920 1080 1024).height
      = (if (1920 : ℚ) / 1080 > 1 then 1024 / ((1920 : ℚ) / 1080) else 1024) ∧
    (resizeContentBox 1920 1080 1024).x
      = (1024 - (resizeContentBox 1920 1080 1024).width) / 2 ∧
    (resizeContentBox 1920 1080 1024).y
      = (1024 - (resizeContentBox 1920 1080 1024).height) / 2 :=
  content_box_formula_agree 1920 1080 1024 (by norm_num) (by norm_num)

/-- C6: concrete landscape case.  For original dimensions 1920 by 1080 and
target dimension 1024 the computed content box is exactly 1024 by 576 at
x-offset 0 and y-offset 224, and the crop extracts exactly that region,
producing a 1024 by 576 output. -/
theorem landscape_box_1920_1080 :
    cropContentBox 1920 1080 1024 = { x := 0, y := 224, width := 1024, height := 576 } ∧
    ( cropToOriginalAspectRatio { mimeType := "image/png", data := "AAAA" }
        1920 1080 1024).sourceRect = { x := 0, y := 224, width := 1024, height := 576 } ∧
    ( cropToOriginalAspectRatio { mimeType := "image/png", data := "AAAA" }
        1920 1080 1024).width = 1024 ∧
    ( cropToOriginalAspectRatio { mimeType := "image/png", data := "AAAA" }
        1920 1080 1024).height = 576 := by
  refine ⟨?_, ?_, ?_, ?_⟩ <;>
    · norm_num [ cropToOriginalAspectRatio, cropContentBox]

/-- C7: `resizeImage` always yields an exact `targetDimension` square, and
the visible content region never exceeds the target box in either
dimension, for every positive input aspect ratio. -/
theorem pad_square_dims_bound (w h t : ℚ) (hw : 0 < w) (hh : 0 < h) (ht : 0 ≤ t) :
    (resizeImage w h t).width = t ∧ (resizeImage w h t).height = t ∧
    (resizeImage w h t).content.width ≤ t ∧ (resizeImage w h t).content.height ≤ t := by
  refine ⟨rfl, rfl, ?_, ?_⟩
  · by_cases hc : w / h > 1
    · simp [resizeImage, resizeContentBox, hc]
    · simp [resizeImage, resizeContentBox, hc]
      exact mul_le_of_le_one_right ht (le_of_not_lt hc)
  · by_cases hc : w / h > 1
    · simp [resizeImage, resizeContentBox, hc]
      exact div_le_self ht (le_of_lt hc)
    · simp [resizeImage, resizeContentBox, hc]

/-- Witness for `pad_square_dims_bound` at the boundary aspect ratios
1 by 1, 10 by 1 and 1 by 10 with target 1024. -/
theorem pad_square_dims_bound_wit :
    ((resizeImage 1 1 1024).width = 1024 ∧ (resizeImage 1 1 1024).height = 1024 ∧
      (resizeImage 1 1 1024).content.width ≤ 1024 ∧
      (resizeImage 1 1 1024).content.height ≤ 1024) ∧
    ((resizeImage 10 1 1024).width = 1024 ∧ (resizeImage 10 1 1024).height = 1024 ∧
      (resizeImage 10 1 1024).content.width ≤ 1024 ∧
      (resizeImage 10 1 1024).content.height ≤ 1024) ∧
    ((resizeImage 1 10 1024).width = 1024 ∧ (resizeImage 1 10 1024).height = 1024 ∧
      (resizeImage 1 10 1024).content.width ≤ 1024 ∧
      (resizeImage 1 10 1024).content.height ≤ 1024) :=
  ⟨pad_square_dims_bound 1 1 1024 (by norm_num) (by norm_num) (by norm_num),
    pad_square_dims_bound 10 1 1024 (by norm_num) (by norm_num) (by norm_num),
    pad_square_dims_bound 1 10 1024 (by norm_num) (by norm_num) (by norm_num)⟩

/-- Line 245: the optional chain
`response.candidates?.[0]?.content?.parts?.find(part => part.inlineData)`:
only candidate 0 is inspected, and the first part carrying inline data is
taken. -/
def imagePartFromResponse (response : GenerateContentResponse) : Option Part :=
  ((((response.candidates).bind List.head?).bind Candidate.content).bind Content.parts).bind
    (List.find? fun part => part.inlineData.isSome)

deriving instance DecidableEq for Except

/-- Results the environment (browser plus Gemini API) supplies to one run
of `generateCompositeImage`: each awaited operation of the run either
rejects with a `JsError` or resolves with its value, in source order:
`getImageDimensions(contextImage)` (line 167), the two `resizeImage`
awaits (lines 172-173), the description call (lines 196-199), the
composition call (lines 238-241) and the image-load inside
the crop helper cropToOriginalAspectRatio (lines 37-38 and 66). -/
structure Env where
  getImageDimensionsResult : Except JsError (ℚ × ℚ)
  resizeDesignResult : Except JsError Unit
  resizeContextResult : Except JsError Unit
  descriptionCallResult : Except JsError DescriptionResponse
  compositionCallResult : Except JsError GenerateContentResponse
  cropLoadResult : Except JsError Unit
deriving DecidableEq

/-- Observable operations issued by one run of `generateCompositeImage`,
in order. -/
inductive Event where
  | measureContext : Event
  | resizeDesign : ℚ → Event
  | resizeContext : ℚ → Event
  | describeCall : Event
  | composeCall : String → Event
  | cropCall : ℚ → ℚ → ℚ → Event
deriving DecidableEq

/-- Line 169. -/
def MAX_DIMENSION : ℚ := 1024

/-- Shallow embedding of `generateCompositeImage` (lines 158-265) as a
function of the environment, returning the settled result together with
the ordered trace of operations issued.  The control flow mirrors the
source: measure the raw context (line 167), resize both images (lines
172-173), issue the description call inside the only try/catch of the
function (lines 194-205: a rejection is replaced by a new error with the
fixed analysis message, while the resolved `text` is taken as the
semantic location description with no emptiness check), issue the
composition call with no surrounding try/catch (lines 238-241: a
rejection propagates unchanged), scan candidate 0 for an inline-data part
(lines 245-247), on failure throw the fixed no-image error (line 264),
otherwise build the data URL from the returned payload (line 250) and
crop it with the dimensions measured at line 167 (lines 253-258), the
crop rejection also propagating unchanged. -/
def generateCompositeImage (env : Env) : Except JsError CroppedImage × List Event :=
  match env.getImageDimensionsResult with
  | .error e => (.error e, [.measureContext])
  | .ok (originalWidth, originalHeight) =>
    match env.resizeDesignResult with
    | .error e => (.error e, [.measureContext, .resizeDesign MAX_DIMENSION])
    | .ok _ =>
      match env.resizeContextResult with
      | .error e =>
          (.error e,
            [.measureContext, .resizeDesign MAX_DIMENSION, .resizeContext MAX_DIMENSION])
      | .ok _ =>
        match env.descriptionCallResult with
        | .error _ =>
            (.error { message := "The AI failed to analyze the context image." },
              [.measureContext, .resizeDesign MAX_DIMENSION, .resizeContext MAX_DIMENSION,
                .describeCall])
        | .ok descriptionResponse =>
          let semanticLocationDescription := descriptionResponse.text
          match env.compositionCallResult with
          | .error e =>
              (.error e,
                [.measureContext, .resizeDesign MAX_DIMENSION, .resizeContext MAX_DIMENSION,
                  .describeCall, .composeCall semanticLocationDescription])
          | .ok response =>
            match imagePartFromResponse response with
            | some imagePart =>
              match imagePart.inlineData with
              | some inline =>
                let generatedSquareImageUrl : DataUrl :=
                  { mimeType := inline.mimeType, data := inline.data }
                match env.cropLoadResult with
                | .error e =>
                    (.error e,
                      [.measureContext, .resizeDesign MAX_DIMENSION,
                        .resizeContext MAX_DIMENSION, .describeCall,
                        .composeCall semanticLocationDescription,
                        .cropCall originalWidth originalHeight MAX_DIMENSION])
                | .ok _ =>
                    (.ok ( cropToOriginalAspectRatio generatedSquareImageUrl originalWidth
                        originalHeight MAX_DIMENSION),
                      [.measureContext, .resizeDesign MAX_DIMENSION,
                        .resizeContext MAX_DIMENSION, .describeCall,
                        .composeCall semanticLocationDescription,
                        .cropCall originalWidth originalHeight MAX_DIMENSION])
              | none =>
                  (.error { message := "The AI model did not return an image. Please try again." },
                    [.measureContext, .resizeDesign MAX_DIMENSION, .resizeContext MAX_DIMENSION,
                      .describeCall, .composeCall semanticLocationDescription])
            | none =>
                (.error { message := "The AI model did not return an image. Please try again." },
                  [.measureContext, .resizeDesign MAX_DIMENSION, .resizeContext MAX_DIMENSION,
                    .describeCall, .composeCall semanticLocationDescription])

/-- Recognizer for description-call events, used to count issued calls. -/
def isDescribeCall : Event → Bool
  | .describeCall => true
  | _ => false

/-- Recognizer for composition-call events, used to count issued calls. -/
def isComposeCall : Event → Bool
  | .composeCall _ => true
  | _ => false

/-- Helper: a successful run forces every stage of the environment to have
resolved, and the returned image is the crop of some data URL at the
measured dimensions and `MAX_DIMENSION`. -/
theorem run_ok_spec (env : Env) (img : CroppedImage)
    (h : (generateCompositeImage env).1 = Except.ok img) :
    ∃ ow oh, env.getImageDimensionsResult = Except.ok (ow, oh) ∧
      env.resizeDesignResult = Except.ok () ∧
      env.resizeContextResult = Except.ok () ∧
      (∃ r, env.descriptionCallResult = Except.ok r) ∧
      (∃ resp, env.compositionCallResult = Except.ok resp) ∧
      env.cropLoadResult = Except.ok () ∧
      ∃ url, img = cropToOriginalAspectRatio url ow oh MAX_DIMENSION := by
  obtain ⟨mr, rd, rc, dc, cc, cl⟩ := env
  rcases mr with e0 | ⟨ow, oh⟩
  · simp [generateCompositeImage] at h
  rcases rd with e1 | u1
  · simp [generateCompositeImage] at h
  rcases rc with e2 | u2
  · simp [generateCompositeImage] at h
  rcases dc with e3 | r3
  · simp [generateCompositeImage] at h
  rcases cc with e4 | r4
  · simp [generateCompositeImage] at h
  rcases himg : imagePartFromResponse r4 with _ | p
  · simp [generateCompositeImage, himg] at h
  rcases hinl : p.inlineData with _ | inl
  · simp [generateCompositeImage, himg, hinl] at h
  rcases cl with e5 | u5
  · simp [generateCompositeImage, himg, hinl] at h
  simp only [generateCompositeImage, himg, hinl, Except.ok.injEq] at h
  exact ⟨ow, oh, rfl, rfl, rfl, ⟨r3, rfl⟩, ⟨r4, rfl⟩, rfl,
    ⟨{ mimeType := inl.mimeType, data := inl.data }, h.symm⟩⟩

/-- Helper: the description call is issued at most once per run. -/
theorem describe_at_most_once (env : Env) :
    ((generateCompositeImage env).2).countP isDescribeCall ≤ 1 := by
  obtain ⟨mr, rd, rc, dc, cc, cl⟩ := env
  rcases mr with e0 | ⟨ow, oh⟩
  · simp [generateCompositeImage, List.countP, List.countP.go, isDescribeCall]
  rcases rd with e1 | u1
  · simp [generateCompositeImage, List.countP, List.countP.go, isDescribeCall]
  rcases rc with e2 | u2
  · simp [generateCompositeImage, List.countP, List.countP.go, isDescribeCall]
  rcases dc with e3 | r3
  · simp [generateCompositeImage, List.countP, List.countP.go, isDescribeCall]
  rcases cc with e4 | r4
  · simp [generateCompositeImage, List.countP, List.countP.go, isDescribeCall]
  rcases himg : imagePartFromResponse r4 with _ | p
  · simp [generateCompositeImage, himg, List.countP, List.countP.go, isDescribeCall]
  rcases hinl : p.inlineData with _ | inl
  · simp [generateCompositeImage, himg, hinl, List.countP, List.countP.go, isDescribeCall]
  rcases cl with e5 | u5 <;>
    simp [generateCompositeImage, himg, hinl, List.countP, List.countP.go, isDescribeCall]

/-- Helper: the composition call is issued at most once per run. -/
theorem compose_at_most_once (env : Env) :
    ((generateCompositeImage env).2).countP isComposeCall ≤ 1 := by
  obtain ⟨mr, rd, rc, dc, cc, cl⟩ := env
  rcases mr with e0 | ⟨ow, oh⟩
  · simp [generateCompositeImage, List.countP, List.countP.go, isComposeCall]
  rcases rd with e1 | u1
  · simp [generateCompositeImage, List.countP, List.countP.go, isComposeCall]
  rcases rc with e2 | u2
  · simp [generateCompositeImage, List.countP, List.countP.go, isComposeCall]
  rcases dc with e3 | r3
  · simp [generateCompositeImage, List.countP, List.countP.go, isComposeCall]
  rcases cc with e4 | r4
  · simp [generateCompositeImage, List.countP, List.countP.go, isComposeCall]
  rcases himg : imagePartFromResponse r4 with _ | p
  · simp [generateCompositeImage, himg, List.countP, List.countP.go, isComposeCall]
  rcases hinl : p.inlineData with _ | inl
  · simp [generateCompositeImage, himg, hinl, List.countP, List.countP.go, isComposeCall]
  rcases cl with e5 | u5 <;>
    simp [generateCompositeImage, himg, hinl, List.countP, List.countP.go, isComposeCall]

/-- C8: measure-before-resize data flow.  In every run the trace starts
with the measurement of the raw context asset, before any resize event,
and every crop call carries exactly the measured pair together with
`MAX_DIMENSION`; no other dimensions ever reach the crop. -/
theorem measure_before_resize_flow (env : Env) :
    ((generateCompositeImage env).2).head? = some Event.measureContext ∧
    ∀ a b t, Event.cropCall a b t ∈ (generateCompositeImage env).2 →
      env.getImageDimensionsResult = Except.ok (a, b) ∧ t = MAX_DIMENSION := by
  obtain ⟨mr, rd, rc, dc, cc, cl⟩ := env
  rcases mr with e0 | ⟨ow, oh⟩
  · exact ⟨rfl, by simp [generateCompositeImage]⟩
  rcases rd with e1 | u1
  · exact ⟨rfl, by simp [generateCompositeImage]⟩
  rcases rc with e2 | u2
  · exact ⟨rfl, by simp [generateCompositeImage]⟩
  rcases dc with e3 | r3
  · exact ⟨rfl, by simp [generateCompositeImage]⟩
  rcases cc with e4 | r4
  · exact ⟨rfl, by simp [generateCompositeImage]⟩
  rcases himg : imagePartFromResponse r4 with _ | p
  · refine ⟨by simp [generateCompositeImage, himg], ?_⟩
    simp [generateCompositeImage, himg]
  rcases hinl : p.inlineData with _ | inl
  · refine ⟨by simp [generateCompositeImage, himg, hinl], ?_⟩
    simp [generateCompositeImage, himg, hinl]
  rcases cl with e5 | u5
  · refine ⟨by simp [generateCompositeImage, himg, hinl], ?_⟩
    intro a b t hmem
    simp only [generateCompositeImage, himg, hinl, List.mem_cons, List.not_mem_nil,
      or_false] at hmem
    rcases hmem with h | h | h | h | h | h <;> simp_all [Event.cropCall.injEq]
  · refine ⟨by simp [generateCompositeImage, himg, hinl], ?_⟩
    intro a b t hmem
    simp only [generateCompositeImage, himg, hinl, List.mem_cons, List.not_mem_nil,
      or_false] at hmem
    rcases hmem with h | h | h | h | h | h <;> simp_all [Event.cropCall.injEq]

/-- A composition response holding one PNG inline part in candidate 0. -/
def respC8 : GenerateContentResponse :=
  { candidates := some [{ content := some { parts := some [{ inlineData := some { mimeType := "image/png", data := "QUJD" } }] } }] }

/-- Environment of a fully successful run measuring a 1600 by 900 context,
used to witness the data-flow claim. -/
def envC8 : Env :=
  { getImageDimensionsResult := Except.ok (1600, 900)
    resizeDesignResult := Except.ok ()
    resizeContextResult := Except.ok ()
    descriptionCallResult := Except.ok { text := "The monitor on the desk." }
    compositionCallResult := Except.ok respC8
    cropLoadResult := Except.ok () }

/-- Witness for `measure_before_resize_flow`: in the concrete successful
run of `envC8` the crop call that occurs carries the measured pair
(1600, 900) and the fixed target 1024. -/
theorem measure_before_resize_flow_wit :
    envC8.getImageDimensionsResult = Except.ok (1600, 900) ∧ (1024 : ℚ) = MAX_DIMENSION :=
  (measure_before_resize_flow envC8).2 1600 900 1024
    (by
      have hev : (generateCompositeImage envC8).2
          = [Event.measureContext, Event.resizeDesign MAX_DIMENSION,
            Event.resizeContext MAX_DIMENSION, Event.describeCall,
            Event.composeCall "The monitor on the desk.",
            Event.cropCall 1600 900 MAX_DIMENSION] := rfl
      rw [hev]
      simp [MAX_DIMENSION])

/-- C9: every successfully returned final image is JPEG at quality 0.95,
whatever MIME type the composition model returned, because the crop step
re-encodes through toDataURL with the fixed format and quality. -/
theorem final_mime_jpeg (env : Env) (img : CroppedImage)
    (h : (generateCompositeImage env).1 = Except.ok img) :
    img.mimeType = "image/jpeg" ∧ img.quality = 95 / 100 := by
  obtain ⟨ow, oh, hm, h1, h2, h3, h4, h5, url, himg⟩ := run_ok_spec env img h
  subst himg
  exact ⟨rfl, rfl⟩

/-- A composition response whose only inline payload is a PNG. -/
def respC9 : GenerateContentResponse :=
  { candidates := some [{ content := some { parts := some [{ inlineData := some { mimeType := "image/png", data := "iVBORw" } }] } }] }

/-- Environment of a successful run in which the composition model returns
a PNG payload, used to witness the re-encoding claim. -/
def envC9 : Env :=
  { getImageDimensionsResult := Except.ok (800, 600)
    resizeDesignResult := Except.ok ()
    resizeContextResult := Except.ok ()
    descriptionCallResult := Except.ok { text := "The television." }
    compositionCallResult := Except.ok respC9
    cropLoadResult := Except.ok () }

/-- The final image of the `envC9` run. -/
def imgC9 : CroppedImage :=
  cropToOriginalAspectRatio { mimeType := "image/png", data := "iVBORw" } 800 600 MAX_DIMENSION

/-- Witness for `final_mime_jpeg`: the `envC9` run receives a PNG payload
from the model yet returns a JPEG at quality 0.95. -/
theorem final_mime_jpeg_wit :
    imgC9.mimeType = "image/jpeg" ∧ imgC9.quality = 95 / 100 :=
  final_mime_jpeg envC9 imgC9 (by rfl)

/-- A composition response carrying a PNG inline payload, used by the
empty-description run. -/
def respC1 : GenerateContentResponse :=
  { candidates := some [{ content := some { parts := some [{ inlineData := some { mimeType := "image/png", data := "QkFTRTY0" } }] } }] }

/-- Environment of a run whose description call resolves successfully with
empty text and whose remaining stages all resolve. -/
def envC1 : Env :=
  { getImageDimensionsResult := Except.ok (1920, 1080)
    resizeDesignResult := Except.ok ()
    resizeContextResult := Except.ok ()
    descriptionCallResult := Except.ok { text := "" }
    compositionCallResult := Except.ok respC1
    cropLoadResult := Except.ok () }

/-- C1 is refuted on the code: in the concrete run of `envC1` the
description call resolves with the empty string, yet the composition call
is issued; the orchestrator contains no emptiness check on the returned
text, only the try/catch around the call itself. -/
theorem empty_description_compose_issued_cx :
    envC1.descriptionCallResult = Except.ok { text := "" } ∧
    Event.composeCall "" ∈ (generateCompositeImage envC1).2 := by
  refine ⟨rfl, ?_⟩
  have hev : (generateCompositeImage envC1).2
      = [Event.measureContext, Event.resizeDesign MAX_DIMENSION,
        Event.resizeContext MAX_DIMENSION, Event.describeCall,
        Event.composeCall "", Event.cropCall 1920 1080 MAX_DIMENSION] := rfl
  rw [hev]
  simp

/-- C1 (amended): the orchestrator fails with the fixed analysis message
and never issues the composition call exactly when the description call
rejects; a successful description response, even one with empty text, is
not treated as an error, and the composition call is still issued with
that text interpolated. -/
theorem description_error_vs_empty_text (env : Env) (ow oh : ℚ)
    (hm : env.getImageDimensionsResult = Except.ok (ow, oh))
    (h1 : env.resizeDesignResult = Except.ok ())
    (h2 : env.resizeContextResult = Except.ok ()) :
    (∀ e, env.descriptionCallResult = Except.error e →
        (generateCompositeImage env).1
            = Except.error { message := "The AI failed to analyze the context image." } ∧
        ∀ s, Event.composeCall s ∉ (generateCompositeImage env).2) ∧
    (∀ s, env.descriptionCallResult = Except.ok { text := s } →
        Event.composeCall s ∈ (generateCompositeImage env).2) := by
  constructor
  · intro e he
    constructor
    · simp [generateCompositeImage, hm, h1, h2, he]
    · intro s
      simp [generateCompositeImage, hm, h1, h2, he]
  · intro s hs
    rcases hcc : env.compositionCallResult with e4 | r4
    · simp [generateCompositeImage, hm, h1, h2, hs, hcc]
    · rcases himg : imagePartFromResponse r4 with _ | p
      · simp [generateCompositeImage, hm, h1, h2, hs, hcc, himg]
      · rcases hinl : p.inlineData with _ | inl
        · simp [generateCompositeImage, hm, h1, h2, hs, hcc, himg, hinl]
        · rcases hcl : env.cropLoadResult with e5 | u5 <;>
            simp [generateCompositeImage, hm, h1, h2, hs, hcc, himg, hinl, hcl]

/-- Witness for `description_error_vs_empty_text` at the concrete run of
`envC1`, whose description text is the empty string. -/
theorem description_error_vs_empty_text_wit :
    Event.composeCall "" ∈ (generateCompositeImage envC1).2 :=
  (description_error_vs_empty_text envC1 1920 1080 rfl rfl rfl).2 "" rfl

/-- Environment of a run whose composition call rejects with a raw
transport error. -/
def envC2 : Env :=
  { getImageDimensionsResult := Except.ok (1920, 1080)
    resizeDesignResult := Except.ok ()
    resizeContextResult := Except.ok ()
    descriptionCallResult := Except.ok { text := "The monitor." }
    compositionCallResult := Except.error { message := "network socket hang up" }
    cropLoadResult := Except.ok () }

/-- C2 is refuted on the code: in the `envC2` run the composition call
rejects with a raw transport error and exactly that error reaches the
caller unchanged — there is no catch around the composition call at the
orchestrator boundary and no wrapping of its message. -/
theorem composition_error_unwrapped_cx :
    envC2.compositionCallResult = Except.error { message := "network socket hang up" } ∧
    (generateCompositeImage envC2).1
        = Except.error { message := "network socket hang up" } :=
  ⟨rfl, by rfl⟩

/-- C2 (amended): propagation policy as the code implements it.  A
description-call rejection is caught and replaced by the fixed analysis
message; a composition-call rejection propagates to the caller unchanged;
a response with no inline image part is surfaced as the fixed no-image
error; a crop rejection propagates unchanged; a successful result forces
every stage to have resolved, so no error is silently swallowed; and each
of the two model calls is issued at most once per run. -/
theorem error_propagation_policy (env : Env) (ow oh : ℚ)
    (hm : env.getImageDimensionsResult = Except.ok (ow, oh))
    (h1 : env.resizeDesignResult = Except.ok ())
    (h2 : env.resizeContextResult = Except.ok ()) :
    (∀ e, env.descriptionCallResult = Except.error e →
        (generateCompositeImage env).1
            = Except.error { message := "The AI failed to analyze the context image." }) ∧
    (∀ r e, env.descriptionCallResult = Except.ok r →
        env.compositionCallResult = Except.error e →
        (generateCompositeImage env).1 = Except.error e) ∧
    (∀ r resp, env.descriptionCallResult = Except.ok r →
        env.compositionCallResult = Except.ok resp →
        imagePartFromResponse resp = none →
        (generateCompositeImage env).1
            = Except.error { message := "The AI model did not return an image. Please try again." }) ∧
    (∀ r resp p d e, env.descriptionCallResult = Except.ok r →
        env.compositionCallResult = Except.ok resp →
        imagePartFromResponse resp = some p → p.inlineData = some d →
        env.cropLoadResult = Except.error e →
        (generateCompositeImage env).1 = Except.error e) ∧
    (∀ img, (generateCompositeImage env).1 = Except.ok img →
        (∃ r, env.descriptionCallResult = Except.ok r) ∧
        (∃ resp, env.compositionCallResult = Except.ok resp) ∧
        env.cropLoadResult = Except.ok ()) ∧
    ((generateCompositeImage env).2.countP isDescribeCall ≤ 1) ∧
    ((generateCompositeImage env).2.countP isComposeCall ≤ 1) := by
  refine ⟨?_, ?_, ?_, ?_, ?_, describe_at_most_once env, compose_at_most_once env⟩
  · intro e he
    simp [generateCompositeImage, hm, h1, h2, he]
  · intro r e hd hc
    simp [generateCompositeImage, hm, h1, h2, hd, hc]
  · intro r resp hd hc hnone
    simp [generateCompositeImage, hm, h1, h2, hd, hc, hnone]
  · intro r resp p d e hd hc hp hpd hcl
    simp [generateCompositeImage, hm, h1, h2, hd, hc, hp, hpd, hcl]
  · intro img h
    obtain ⟨ow2, oh2, hm2, h12, h22, h32, h42, h52, url, himg⟩ := run_ok_spec env img h
    exact ⟨h32, h42, h52⟩

/-- Witness for `error_propagation_policy`: in the `envC2` run the raw
composition error is the surfaced result. -/
theorem error_propagation_policy_wit :
    (generateCompositeImage envC2).1
        = Except.error { message := "network socket hang up" } :=
  (error_propagation_policy envC2 1920 1080 rfl rfl rfl).2.1 { text := "The monitor." }
    { message := "network socket hang up" } rfl rfl

/-- C3: if every part of every candidate of the composition response lacks
inline data, the run fails with the fixed no-image error and no crop call
is ever issued. -/
theorem no_inline_image_fails_no_crop (env : Env) (ow oh : ℚ) (r : DescriptionResponse)
    (resp : GenerateContentResponse)
    (hm : env.getImageDimensionsResult = Except.ok (ow, oh))
    (h1 : env.resizeDesignResult = Except.ok ())
    (h2 : env.resizeContextResult = Except.ok ())
    (hd : env.descriptionCallResult = Except.ok r)
    (hc : env.compositionCallResult = Except.ok resp)
    (hnone : ∀ cs, resp.candidates = some cs → ∀ c ∈ cs, ∀ ct, c.content = some ct →
        ∀ ps, ct.parts = some ps → ∀ p ∈ ps, p.inlineData = none) :
    (generateCompositeImage env).1
        = Except.error { message := "The AI model did not return an image. Please try again." } ∧
    ∀ a b t, Event.cropCall a b t ∉ (generateCompositeImage env).2 := by
  have himg : imagePartFromResponse resp = none := by
    unfold imagePartFromResponse
    rcases hcands : resp.candidates with _ | cs
    · simp
    · rcases cs with _ | ⟨c0, rest⟩
      · simp
      · simp only [Option.some_bind, List.head?_cons]
        rcases hct : c0.content with _ | ct
        · simp [hct]
        · simp only [hct, Option.some_bind]
          rcases hps : ct.parts with _ | ps
          · simp [hps]
          · simp only [hps, Option.some_bind]
            rw [List.find?_eq_none]
            intro p hp
            have hpn := hnone (c0 :: rest) hcands c0 (List.mem_cons_self c0 rest) ct hct
              ps hps p hp
            simp [hpn]
  constructor
  · simp [generateCompositeImage, hm, h1, h2, hd, hc, himg]
  · intro a b t
    simp [generateCompositeImage, hm, h1, h2, hd, hc, himg]

/-- A text-only response part. -/
def partC3 : Part := { inlineData := none }

/-- Candidate content holding only the text-only part. -/
def contentC3 : Content := { parts := some [partC3] }

/-- A composition response with one candidate whose parts all lack inline
data. -/
def respC3 : GenerateContentResponse :=
  { candidates := some [{ content := some contentC3 }] }

/-- Environment of a run whose composition response contains no inline
image part anywhere. -/
def envC3 : Env :=
  { getImageDimensionsResult := Except.ok (1280, 720)
    resizeDesignResult := Except.ok ()
    resizeContextResult := Except.ok ()
    descriptionCallResult := Except.ok { text := "The screen." }
    compositionCallResult := Except.ok respC3
    cropLoadResult := Except.ok () }

/-- Witness for `no_inline_image_fails_no_crop` at the concrete run of
`envC3`. -/
theorem no_inline_image_fails_no_crop_wit :
    (generateCompositeImage envC3).1
        = Except.error { message := "The AI model did not return an image. Please try again." } ∧
    Event.cropCall 1280 720 1024 ∉ (generateCompositeImage envC3).2 := by
  have hnone : ∀ cs, respC3.candidates = some cs → ∀ c ∈ cs, ∀ ct, c.content = some ct →
      ∀ ps, ct.parts = some ps → ∀ p ∈ ps, p.inlineData = none := by
    intro cs hcs c hcmem ct hct ps hps p hp
    simp only [respC3, Option.some.injEq] at hcs
    subst hcs
    simp only [List.mem_singleton] at hcmem
    subst hcmem
    simp only [Option.some.injEq] at hct
    subst hct
    simp only [contentC3, Option.some.injEq] at hps
    subst hps
    simp only [List.mem_singleton] at hp
    subst hp
    rfl
  exact ⟨(no_inline_image_fails_no_crop envC3 1280 720 { text := "The screen." } respC3
      rfl rfl rfl rfl rfl hnone).1,
    (no_inline_image_fails_no_crop envC3 1280 720 { text := "The screen." } respC3
      rfl rfl rfl rfl rfl hnone).2 1280 720 1024⟩

/-- C10: only candidate 0 is scanned for inline data.  If every part of
candidate 0 lacks inline data, the run fails with the no-image error and
never crops, even when a later candidate does carry an inline image. -/
theorem first_candidate_only (env : Env) (ow oh : ℚ) (r : DescriptionResponse)
    (resp : GenerateContentResponse) (c0 : Candidate) (rest : List Candidate)
    (hm : env.getImageDimensionsResult = Except.ok (ow, oh))
    (h1 : env.resizeDesignResult = Except.ok ())
    (h2 : env.resizeContextResult = Except.ok ())
    (hd : env.descriptionCallResult = Except.ok r)
    (hc : env.compositionCallResult = Except.ok resp)
    (hcs : resp.candidates = some (c0 :: rest))
    (h0 : ∀ ct, c0.content = some ct → ∀ ps, ct.parts = some ps → ∀ p ∈ ps, p.inlineData = none)
    (hlater : ∃ c ∈ rest, ∃ ct, c.content = some ct ∧ ∃ ps, ct.parts = some ps ∧
        ∃ p ∈ ps, p.inlineData ≠ none) :
    (generateCompositeImage env).1
        = Except.error { message := "The AI model did not return an image. Please try again." } ∧
    ∀ a b t, Event.cropCall a b t ∉ (generateCompositeImage env).2 := by
  have himg : imagePartFromResponse resp = none := by
    unfold imagePartFromResponse
    rw [hcs]
    simp only [Option.some_bind, List.head?_cons]
    rcases hct : c0.content with _ | ct
    · simp [hct]
    · simp only [hct, Option.some_bind]
      rcases hps : ct.parts with _ | ps
      · simp [hps]
      · simp only [hps, Option.some_bind]
        rw [List.find?_eq_none]
        intro p hp
        have hpn := h0 ct hct ps hps p hp
        simp [hpn]
  constructor
  · simp [generateCompositeImage, hm, h1, h2, hd, hc, himg]
  · intro a b t
    simp [generateCompositeImage, hm, h1, h2, hd, hc, himg]

/-- A part carrying inline image data, placed in candidate 1. -/
def partC10 : Part := { inlineData := some { mimeType := "image/png", data := "Zm9v" } }

/-- Candidate 0 of the two-candidate response: text-only. -/
def candC10a : Candidate := { content := some { parts := some [{ inlineData := none }] } }

/-- Candidate 1 of the two-candidate response: carries the inline image. -/
def candC10b : Candidate := { content := some { parts := some [partC10] } }

/-- A composition response whose candidate 0 has no inline part while
candidate 1 does. -/
def respC10 : GenerateContentResponse := { candidates := some [candC10a, candC10b] }

/-- Environment of a run receiving the two-candidate response. -/
def envC10 : Env :=
  { getImageDimensionsResult := Except.ok (1024, 768)
    resizeDesignResult := Except.ok ()
    resizeContextResult := Except.ok ()
    descriptionCallResult := Except.ok { text := "The laptop screen." }
    compositionCallResult := Except.ok respC10
    cropLoadResult := Except.ok () }

/-- Witness for `first_candidate_only` at the concrete run of `envC10`:
candidate 1 carries an image, yet the run fails and never crops. -/
theorem first_candidate_only_wit :
    (generateCompositeImage envC10).1
        = Except.error { message := "The AI model did not return an image. Please try again." } ∧
    Event.cropCall 1024 768 1024 ∉ (generateCompositeImage envC10).2 := by
  have h0 : ∀ ct, candC10a.content = some ct → ∀ ps, ct.parts = some ps →
      ∀ p ∈ ps, p.inlineData = none := by
    intro ct hct ps hps p hp
    simp only [candC10a, Option.some.injEq] at hct
    subst hct
    simp only [Option.some.injEq] at hps
    subst hps
    simp only [List.mem_singleton] at hp
    subst hp
    rfl
  have hlater : ∃ c ∈ [candC10b], ∃ ct, c.content = some ct ∧ ∃ ps, ct.parts = some ps ∧
      ∃ p ∈ ps, p.inlineData ≠ none := by
    refine ⟨candC10b, List.mem_singleton.mpr rfl, { parts := some [partC10] }, rfl,
      [partC10], rfl, partC10, List.mem_singleton.mpr rfl, ?_⟩
    simp [partC10]
  exact ⟨(first_candidate_only envC10 1024 768 { text := "The laptop screen." } respC10
      candC10a [candC10b] rfl rfl rfl rfl rfl rfl h0 hlater).1,
    (first_candidate_only envC10 1024 768 { text := "The laptop screen." } respC10
      candC10a [candC10b] rfl rfl rfl rfl rfl rfl h0 hlater).2 1024 768 1024⟩

end GeminiService
